import Mathlib

/-
Verification of the gammapy sampler module (gammapy/modeling/sampler.py) and
of the seeded spectrum simulation exercised by
gammapy/spectrum/tests/test_simulation.py, as a shallow embedding in Lean 4.

Python machine values are modelled as ℚ (numpy float arithmetic is treated as
exact rational arithmetic), Python lists as List, Python dicts as association
lists with first-match lookup, and Python exceptions as an Except error value.
-/

set_option autoImplicit false

namespace Gammapy

/-- Python exception classes that the embedded code can raise.
`unboundLocalError` models a read of a local variable before assignment,
`attributeError` models attribute access on None, `configurationError`
models the error class the spec postulates (never raised by the source). -/
inductive PyError where
  | valueError
  | indexError
  | attributeError
  | unboundLocalError
  | configurationError
  | missingPriorError
  deriving DecidableEq, Repr

/-- Values that can appear in the sampler options dict of sampler.py. -/
inductive OptValue where
  | nat (n : Nat)
  | rat (q : ℚ)
  | str (s : String)
  | bool (b : Bool)
  | pynone
  deriving DecidableEq, Repr

/-- Python dict update semantics, d.update(u): every key of u replaces the
value stored in d when present, and is appended otherwise. -/
def dictUpdate (d u : List (String × OptValue)) : List (String × OptValue) :=
  (d.map fun kv =>
    match List.lookup kv.1 u with
    | some v => (kv.1, v)
    | none => kv) ++
  u.filter fun kv => (List.lookup kv.1 d).isNone

/-- State of a Sampler object after a successful __init__. -/
structure Sampler where
  backend : String
  sampler_opts : List (String × OptValue)

/-- Default ultranest options assigned to default_opts in Sampler.__init__. -/
def ultranestDefaultOpts : List (String × OptValue) :=
  [("live_points", .nat 200),
   ("frac_remain", .rat (1/2)),
   ("log_dir", .pynone),
   ("resume", .str "subfolder"),
   ("step_sampler", .bool false),
   ("nsteps", .nat 20)]

/-- Sampler.__init__: the local default_opts is assigned only inside the
`if self.backend == "ultranest"` branch, yet the line
`self.sampler_opts = default_opts` runs unconditionally, so a non-ultranest
backend raises UnboundLocalError during construction. When sampler_opts is
given, the defaults are updated key by key with the user entries. -/
def Sampler.init (backend : String) (sampler_opts : Option (List (String × OptValue))) :
    Except PyError Sampler :=
  if backend = "ultranest" then
    let default_opts := ultranestDefaultOpts
    let merged :=
      match sampler_opts with
      | some u => dictUpdate default_opts u
      | none => default_opts
    .ok { backend := backend, sampler_opts := merged }
  else
    .error .unboundLocalError

/-- Model parameter: name, current value, error (stdev) and an optional prior,
modelled by its inverse cumulative distribution function. -/
structure Parameter where
  name : String
  value : ℚ
  error : ℚ
  prior : Option (ℚ → ℚ)

/-- The update loop of Sampler._update_models:
`for i, par in enumerate(models.parameters.free_parameters)` sets
`par.value = posterior["mean"][i]` and `par.error = posterior["stdev"][i]`.
An index beyond the end of either posterior array raises IndexError. -/
def updateParamsLoop : List Parameter → Nat → List ℚ → List ℚ → Except PyError (List Parameter)
  | [], _, _, _ => .ok []
  | p :: ps, i, mean, stdev =>
    match mean[i]?, stdev[i]? with
    | some m, some s =>
      match updateParamsLoop ps (i + 1) mean stdev with
      | .error e => .error e
      | .ok rest => .ok ({ p with value := m, error := s } :: rest)
    | _, _ => .error .indexError

/-- Mean of row j of a variables-by-observations matrix, as used by np.cov. -/
def rowMean {V O : Nat} (A : Fin V → Fin O → ℚ) (j : Fin V) : ℚ :=
  (∑ i, A j i) / (O : ℚ)

/-- Documented semantics of numpy.cov with its defaults (rowvar=True,
bias=False): rows are variables, columns are observations, and the unbiased
normalization divides by the number of observations minus one. -/
def npCov {V O : Nat} (A : Fin V → Fin O → ℚ) (j k : Fin V) : ℚ :=
  (∑ i, (A j i - rowMean A j) * (A k i - rowMean A k)) / ((O : ℚ) - 1)

/-- Transpose samples.T of the draws-by-parameters sample matrix. -/
def matTranspose {M N : Nat} (X : Fin M → Fin N → ℚ) : Fin N → Fin M → ℚ :=
  fun j i => X i j

/-- Sampler._update_models: sets each free parameter value and error from the
posterior mean and stdev arrays, then computes np.cov(samples.T) and attaches
it as the covariance of the model set. Covariance.from_factor_matrix lives in
covariance.py, outside the provided sources; following the spec wording it
attaches the computed matrix aligned index-for-index with the free-parameter
order, modelled here as returning the matrix alongside the parameters. -/
def Sampler._update_models (free_parameters : List Parameter) (mean stdev : List ℚ)
    {M N : Nat} (samples : Fin M → Fin N → ℚ) :
    Except PyError (List Parameter × (Fin N → Fin N → ℚ)) :=
  match updateParamsLoop free_parameters 0 mean stdev with
  | .error e => .error e
  | .ok ps => .ok (ps, npCov (matTranspose samples))

/-- Spec-side definition, from the spec wording only: the sample covariance
matrix of the sample matrix, columns = parameters, rows = draws, with the
standard unbiased denominator (number of draws minus one). -/
def sampleCovSpec {M N : Nat} (X : Fin M → Fin N → ℚ) (j k : Fin N) : ℚ :=
  (∑ i, (X i j - (∑ r, X r j) / (M : ℚ)) * (X i k - (∑ r, X r k) / (M : ℚ))) /
    ((M : ℚ) - 1)

/-- Modelled from the spec: the vectorized value assignment of the Parameters
collection (parameters.py is not among the provided sources). The setter
assigns the vector elementwise into the parameter set, in the fixed
free-parameter order. -/
def Parameters.assignValues (ps : List Parameter) (vs : List ℚ) : List Parameter :=
  List.zipWith (fun p v => { p with value := v }) ps vs

/-- SamplerLikelihood: wraps the dataset stat_sum statistic. The statistic is
modelled as a function of the parameter state it reads. -/
structure SamplerLikelihood where
  function : List Parameter → ℚ
  parameters : List Parameter

/-- SamplerLikelihood.fcn: assigns the value vector into self.parameters,
then returns -0.5 times the statistic evaluated on the updated state. -/
def SamplerLikelihood.fcn (self : SamplerLikelihood) (value : List ℚ) :
    SamplerLikelihood × ℚ :=
  let ps := Parameters.assignValues self.parameters value
  ({ self with parameters := ps }, -(1 / 2 : ℚ) * self.function ps)

/-- Evaluation of the list comprehension
`[par.prior._inverse_cdf(val) for par, val in zip(parameters, values)]`:
for the first parameter whose prior is None, accessing `_inverse_cdf` on None
raises AttributeError. A None entry in the collection itself also cannot be
dereferenced. -/
def priorCdfList : List (Option Parameter × ℚ) → Except PyError (List ℚ)
  | [] => .ok []
  | (par, val) :: rest =>
    match par with
    | none => .error .attributeError
    | some p =>
      match p.prior with
      | none => .error .attributeError
      | some cdf =>
        match priorCdfList rest with
        | .error e => .error e
        | .ok xs => .ok (cdf val :: xs)

/-- The _prior_inverse_cdf closure inside Sampler.sampler_ultranest. The guard
`if None in parameters` is membership of None among the elements of the
collection (which holds only when the collection itself stores a None entry),
modelled as `parameters.any Option.isNone`; it raises ValueError. Otherwise
the comprehension over zip(parameters, values) is evaluated. -/
def Sampler._prior_inverse_cdf (parameters : List (Option Parameter))
    (values : List ℚ) : Except PyError (List ℚ) :=
  if parameters.any Option.isNone then
    .error .valueError
  else
    priorCdfList (parameters.zip values)

/-- Fields of the ultranest result payload that sampler.py reads. -/
structure UltranestResult where
  ncall : Nat
  converged : Bool
  mean : List ℚ
  stdev : List ℚ
  samples : List (List ℚ)

/-- SamplerResult state: nfev, success, models, samples, sampler_results.
The constructor defaults are nfev=0, success=False and None for the rest. -/
structure SamplerResult where
  nfev : Nat
  success : Bool
  models : Option (List Parameter)
  samples : Option (List (List ℚ))
  sampler_results : Option UltranestResult

/-- SamplerResult.from_ultranest: builds the result from the ultranest payload.
The kwargs set nfev, success, samples and sampler_results; models is not
among them, so it keeps its constructor default None. -/
def SamplerResult.from_ultranest (r : UltranestResult) : SamplerResult :=
  { nfev := r.ncall
    success := r.converged
    models := none
    samples := some r.samples
    sampler_results := some r }

/-- The result assembly at the end of Sampler.run:
`result = SamplerResult.from_ultranest(result)` followed by the field
assignment `result.models = datasets.models.copy()` on the constructed
object. The copy of the immutable model list is the list itself. -/
def Sampler.runResultAssembly (r : UltranestResult) (models : List Parameter) :
    SamplerResult :=
  { SamplerResult.from_ultranest r with models := some models }

/-- The backend dispatch of Sampler.run: the ultranest branch assembles the
result; any other backend string reaches the else branch, which raises
`ValueError("sampler {backend} is not supported.")`. -/
def Sampler.runDispatch (self : Sampler) (r : UltranestResult)
    (models : List Parameter) : Except PyError SamplerResult :=
  if self.backend = "ultranest" then
    .ok (Sampler.runResultAssembly r models)
  else
    .error .valueError

/-- Modelled from the spec: a deterministic pseudo-random generator state
transition (the spec section 9 leaves the concrete generator algorithm open
and makes determinism, not the bit pattern, the portable contract). -/
def lcg (s : Nat) : Nat :=
  (6364136223846793005 * s + 1442695040888963407) % 2 ^ 64

/-- Modelled from the spec: the generator is seeded deterministically from the
integer seed alone. -/
def seedRng (seed : Nat) : Nat :=
  lcg (seed % 2 ^ 64)

/-- Modelled from the spec: one Poisson-distributed count drawn from the
generator state for a given expected rate, returning the count and the
advanced state. The spec leaves the sampling algorithm open; this model draws
a uniform value from the state and maps it to a count with the expected rate
as scale, which preserves the properties the spec fixes: the draw is a
deterministic function of (state, rate) and advances the state. -/
def drawPoisson (rng : Nat) (rate : ℚ) : Nat × Nat :=
  let rng2 := lcg rng
  let r := rng2 % 2 ^ 32
  (r * (2 * rate.num.toNat + 1) / (rate.den * 2 ^ 32), rng2)

/-- Modelled from the spec: independent Poisson samples per energy bin, drawn
sequentially while threading the generator state. -/
def drawCounts : Nat → List ℚ → List Nat × Nat
  | rng, [] => ([], rng)
  | rng, rate :: rates =>
    let (c, rng2) := drawPoisson rng rate
    let (cs, rng3) := drawCounts rng2 rates
    (c :: cs, rng3)

/-- Modelled from the spec: the per-call simulation inputs, already folded
through the response functions by the external collaborators: expected source
counts per reconstructed-energy bin, and optionally the expected background
counts per bin together with the exposure ratio alpha. -/
structure SimulationConfig where
  expected_source : List ℚ
  background : Option (List ℚ × ℚ)

/-- Modelled from the spec: one synthetic observation with its identifier,
the on count vector and, when background is configured, the off count vector
and alpha. -/
structure SimulatedObservation where
  obs_id : Nat
  on_vector : List Nat
  off_vector : Option (List Nat)
  alpha : Option ℚ
  deriving DecidableEq, Repr

/-- Modelled from the spec: simulate_one(seed). A generator is freshly seeded
from the integer seed; the on vector is drawn from the expected source
(plus background when configured) counts; when background and alpha are
configured, an off vector is additionally drawn from background/alpha. -/
def simulate_one (cfg : SimulationConfig) (seed : Nat) : SimulatedObservation :=
  let rng0 := seedRng seed
  match cfg.background with
  | none =>
    { obs_id := seed
      on_vector := (drawCounts rng0 cfg.expected_source).1
      off_vector := none
      alpha := none }
  | some (bg, alpha) =>
    let onRates := List.zipWith (fun a b => a + b) cfg.expected_source bg
    let (onCounts, rng1) := drawCounts rng0 onRates
    let (offCounts, _) := drawCounts rng1 (bg.map fun b => b / alpha)
    { obs_id := seed
      on_vector := onCounts
      off_vector := some offCounts
      alpha := some alpha }

/-- Modelled from the spec: the mutable simulator object. rng is the ambient
generator state of the process, obs the last simulated observation, result
the observation list of the last batch run. -/
structure SpectrumSimulation where
  rng : Nat
  cfg : SimulationConfig
  obs : Option SimulatedObservation
  result : Option (List SimulatedObservation)

/-- Modelled from the spec: simulate_obs(seed) stores the freshly simulated
observation on the simulator; the seeded generator is local to the call, so
the ambient state is not consulted. -/
def SpectrumSimulation.simulate_obs (self : SpectrumSimulation) (seed : Nat) :
    SpectrumSimulation :=
  { self with obs := some (simulate_one self.cfg seed) }

/-- Modelled from the spec: the batch loop, one simulate_obs call per seed in
input order, collecting each stored observation. -/
def SpectrumSimulation.runLoop (self : SpectrumSimulation) :
    List Nat → SpectrumSimulation × List SimulatedObservation
  | [] => (self, [])
  | s :: ss =>
    let o := simulate_one self.cfg s
    let step := SpectrumSimulation.runLoop { self with obs := some o } ss
    (step.1, o :: step.2)

/-- Modelled from the spec: run(seeds) executes the batch loop and stores the
ordered result set on the simulator. -/
def SpectrumSimulation.run (self : SpectrumSimulation) (seeds : List Nat) :
    SpectrumSimulation :=
  let step := SpectrumSimulation.runLoop self seeds
  { step.1 with result := some step.2 }

/-- Concrete parameter without a prior, for instantiating the theorems. -/
def pNoPrior : Parameter :=
  { name := "index", value := 23 / 10, error := 0, prior := none }

/-- Concrete two-parameter free-parameter list. -/
def pList2 : List Parameter :=
  [pNoPrior, { name := "amplitude", value := 5 / 2, error := 0, prior := none }]

/-- Concrete 2 by 1 sample matrix (two draws of one parameter). -/
def sEx21 : Fin 2 → Fin 1 → ℚ :=
  fun i _ => if i.val = 0 then 5 else 7

/-- Concrete 3 by 2 sample matrix (three draws of two parameters). -/
def sEx32 : Fin 3 → Fin 2 → ℚ :=
  fun i j => (i.val : ℚ) + 2 * (j.val : ℚ) * (i.val : ℚ) + 1

/-- Concrete ultranest payload for instantiating the result theorems. -/
def rEx : UltranestResult :=
  { ncall := 42, converged := true, mean := [1], stdev := [2], samples := [[3]] }

/-- Concrete model list for instantiating the result theorems. -/
def mEx : List Parameter :=
  [{ name := "p", value := 0, error := 0, prior := none }]

/-- Concrete likelihood wrapper whose statistic sums the parameter values. -/
def likeEx : SamplerLikelihood :=
  { function := fun ps => (ps.map Parameter.value).sum
    parameters := [pNoPrior] }

/-- Concrete simulator with background configured. -/
def simEx : SpectrumSimulation :=
  { rng := 0
    cfg := { expected_source := [3, 5 / 2], background := some ([1 / 2, 1], 1 / 3) }
    obs := none
    result := none }

/-- Concrete simulator sharing the model state of simEx but with a different
ambient generator state and call history. -/
def simEx2 : SpectrumSimulation :=
  { rng := 987654321, cfg := simEx.cfg, obs := none, result := some [] }

theorem lookup_append (k : String) (l₁ l₂ : List (String × OptValue)) :
    List.lookup k (l₁ ++ l₂) =
      match List.lookup k l₁ with
      | some v => some v
      | none => List.lookup k l₂ := by
  induction l₁ with
  | nil => simp [List.lookup]
  | cons kv rest ih =>
    by_cases h : k = kv.1
    · simp [List.lookup, h]
    · have hb : (k == kv.1) = false := by
        simp [h]
      simp [List.lookup, hb, ih]

theorem lookup_map_override (d u : List (String × OptValue)) (k : String) :
    List.lookup k
      (d.map fun kv =>
        match List.lookup kv.1 u with
        | some v => (kv.1, v)
        | none => kv) =
      match List.lookup k d with
      | some v =>
        some (match List.lookup k u with
              | some w => w
              | none => v)
      | none => none := by
  induction d with
  | nil => simp [List.lookup]
  | cons kv rest ih =>
    by_cases h : k = kv.1
    · subst h
      cases hku : List.lookup kv.1 u with
      | some w => simp [List.lookup, hku]
      | none => simp [List.lookup, hku]
    · have hb : (k == kv.1) = false := by simp [h]
      cases hku : List.lookup kv.1 u with
      | some w => simpa [List.lookup, hku, hb] using ih
      | none => simpa [List.lookup, hku, hb] using ih

theorem lookup_filter_of_key_kept (u : List (String × OptValue)) (k : String)
    (p : String × OptValue → Bool) (hp : ∀ v, p (k, v) = true) :
    List.lookup k (u.filter p) = List.lookup k u := by
  induction u with
  | nil => simp
  | cons kv rest ih =>
    by_cases h : k = kv.1
    · subst h
      have : p kv = true := by
        have := hp kv.2
        simpa using this
      simp [List.filter, this, List.lookup]
    · have hb : (k == kv.1) = false := by simp [h]
      cases hpkv : p kv with
      | true => simp [List.filter, hpkv, List.lookup, hb, ih]
      | false => simp [List.filter, hpkv, List.lookup, hb, ih]

theorem lookup_dictUpdate (d u : List (String × OptValue)) (k : String) :
    List.lookup k (dictUpdate d u) =
      match List.lookup k u with
      | some v => some v
      | none => List.lookup k d := by
  unfold dictUpdate
  rw [lookup_append, lookup_map_override]
  cases hd : List.lookup k d with
  | some v =>
    cases hu : List.lookup k u with
    | some w => simp
    | none => simp
  | none =>
    have hfilter :
        List.lookup k (u.filter fun kv => (List.lookup kv.1 d).isNone) =
          List.lookup k u := by
      apply lookup_filter_of_key_kept
      intro v
      simp [hd]
    simp only [hfilter]
    cases hu : List.lookup k u with
    | some w => simp
    | none => simp

/-- C10: for a Sampler constructed with backend "ultranest", every effective
option is the user-supplied value when the key was supplied and the default
value otherwise, with the defaults live_points=200, frac_remain=0.5,
log_dir=None, resume="subfolder", step_sampler=False, nsteps=20. -/
theorem sampler_init_opts_merge (user : List (String × OptValue)) (k : String) :
    (Sampler.init "ultranest" (some user)).map (fun s => List.lookup k s.sampler_opts) =
      .ok (match List.lookup k user with
           | some v => some v
           | none =>
             List.lookup k
               [("live_points", OptValue.nat 200),
                ("frac_remain", OptValue.rat (1 / 2)),
                ("log_dir", OptValue.pynone),
                ("resume", OptValue.str "subfolder"),
                ("step_sampler", OptValue.bool false),
                ("nsteps", OptValue.nat 20)]) := by
  have h1 : Sampler.init "ultranest" (some user) =
      .ok { backend := "ultranest",
            sampler_opts := dictUpdate ultranestDefaultOpts user } := by
    simp [Sampler.init]
  rw [h1]
  show Except.ok (List.lookup k (dictUpdate ultranestDefaultOpts user)) = _
  rw [lookup_dictUpdate]
  cases List.lookup k user <;> rfl

/-- C8: a Sampler constructed with a backend other than "ultranest" crashes
already in __init__ with UnboundLocalError (default_opts referenced before
assignment), so the ValueError branch at the start of run is unreachable for
it; the run dispatch itself raises ValueError for a non-ultranest backend
and never falls back to a default backend. -/
theorem sampler_unsupported_backend_crash :
    Sampler.init "emcee" none = .error .unboundLocalError ∧
    Sampler.runDispatch { backend := "emcee", sampler_opts := [] } rEx mEx =
      .error .valueError := by
  constructor
  · simp [Sampler.init]
  · simp [Sampler.runDispatch]

/-- C9 counterexample: after Sampler.run assembles the result, the models
field differs from the one the constructed SamplerResult held, i.e. the
field was mutated after construction (from None to the model copy). -/
theorem sampler_result_mutated_after_construction_cex :
    (Sampler.runResultAssembly rEx mEx).models ≠
      (SamplerResult.from_ultranest rEx).models := by
  simp [Sampler.runResultAssembly, SamplerResult.from_ultranest]

/-- C9 amended: the SamplerResult is created once per run via from_ultranest
with models = None, and run then performs exactly one post-construction
mutation, setting models to the copied model set; nfev, success, samples and
sampler_results keep the values given at construction. -/
theorem sampler_result_single_mutation (r : UltranestResult) (models : List Parameter) :
    (SamplerResult.from_ultranest r).models = none ∧
    Sampler.runResultAssembly r models =
      { nfev := r.ncall
        success := r.converged
        models := some models
        samples := some r.samples
        sampler_results := some r } := by
  exact ⟨rfl, rfl⟩

/-- C6: a free parameter whose prior is None is not caught by the guard
`if None in parameters` (the collection holds the parameter, not None), so
the prior transform fails with AttributeError on `None._inverse_cdf` during
the sampling run instead of raising the intended missing-prior error. -/
theorem missing_prior_not_detected :
    Sampler._prior_inverse_cdf [some pNoPrior] [1 / 2] = .error .attributeError ∧
    Sampler._prior_inverse_cdf [some pNoPrior] [1 / 2] ≠ .error .valueError ∧
    Sampler._prior_inverse_cdf [some pNoPrior] [1 / 2] ≠ .error .missingPriorError := by
  have h0 : Sampler._prior_inverse_cdf [some pNoPrior] [1 / 2] =
      .error .attributeError := rfl
  refine ⟨h0, ?_, ?_⟩
  · rw [h0]
    intro h
    exact absurd (Except.error.inj h) (by decide)
  · rw [h0]
    intro h
    exact absurd (Except.error.inj h) (by decide)

theorem getElem?_eq_some_getD {α : Type} (l : List α) (i : Nat) (d : α)
    (h : i < l.length) : l[i]? = some (l.getD i d) := by
  rw [List.getD_eq_getElem?_getD, List.getElem?_eq_getElem h]
  rfl

theorem updateParamsLoop_ok (ps : List Parameter) (i0 : Nat) (mean stdev : List ℚ)
    (hm : i0 + ps.length ≤ mean.length) (hs : i0 + ps.length ≤ stdev.length) :
    ∃ l, updateParamsLoop ps i0 mean stdev = .ok l ∧ l.length = ps.length ∧
      ∀ k (hk : k < ps.length),
        l[k]? = some { ps.get ⟨k, hk⟩ with
                       value := mean.getD (i0 + k) 0
                       error := stdev.getD (i0 + k) 0 } := by
  induction ps generalizing i0 with
  | nil => exact ⟨[], rfl, rfl, fun k hk => absurd hk (Nat.not_lt_zero k)⟩
  | cons p ps ih =>
    have hm' : i0 < mean.length := by
      simp only [List.length_cons] at hm
      omega
    have hs' : i0 < stdev.length := by
      simp only [List.length_cons] at hs
      omega
    obtain ⟨l, hl, hlen, hget⟩ := ih (i0 + 1)
      (by simp only [List.length_cons] at hm; omega)
      (by simp only [List.length_cons] at hs; omega)
    refine ⟨{ p with value := mean.getD i0 0, error := stdev.getD i0 0 } :: l,
      ?_, by simp [hlen], ?_⟩
    · unfold updateParamsLoop
      rw [getElem?_eq_some_getD mean i0 0 hm', getElem?_eq_some_getD stdev i0 0 hs', hl]
    · intro k hk
      cases k with
      | zero => simp
      | succ j =>
        have hj : j < ps.length := by
          simp only [List.length_cons] at hk
          omega
        have h2 := hget j hj
        have harith : i0 + (j + 1) = i0 + 1 + j := by omega
        simp only [List.getElem?_cons_succ, harith]
        exact h2

theorem updateParamsLoop_indexError (ps : List Parameter) (i0 : Nat)
    (mean stdev : List ℚ) (hne : 0 < ps.length)
    (h : mean.length < i0 + ps.length ∨ stdev.length < i0 + ps.length) :
    updateParamsLoop ps i0 mean stdev = .error .indexError := by
  induction ps generalizing i0 with
  | nil => simp at hne
  | cons p ps ih =>
    by_cases hm' : i0 < mean.length
    · by_cases hs' : i0 < stdev.length
      · have hlen : 0 < ps.length := by
          rcases h with h | h <;> simp only [List.length_cons] at h <;> omega
        have h2 : mean.length < (i0 + 1) + ps.length ∨
            stdev.length < (i0 + 1) + ps.length := by
          rcases h with h | h
          · left
            simp only [List.length_cons] at h
            omega
          · right
            simp only [List.length_cons] at h
            omega
        have hrec := ih (i0 + 1) hlen h2
        unfold updateParamsLoop
        rw [getElem?_eq_some_getD mean i0 0 hm',
          getElem?_eq_some_getD stdev i0 0 hs', hrec]
      · unfold updateParamsLoop
        rw [getElem?_eq_some_getD mean i0 0 hm',
          List.getElem?_eq_none (l := stdev) (by omega)]
    · unfold updateParamsLoop
      rw [List.getElem?_eq_none (l := mean) (by omega)]

/-- C1: for a model set with N free parameters whose posterior has N means
and N stdevs and a sample matrix with M draws of the N parameters, M > N,
the consolidation step succeeds and the attached covariance, an N by N
matrix by its type, equals the spec-side sample covariance of the sample
matrix (columns = parameters, rows = draws, unbiased denominator M - 1) and
is symmetric. -/
theorem update_models_covariance_spec
    (free_parameters : List Parameter) (mean stdev : List ℚ) {M N : Nat}
    (samples : Fin M → Fin N → ℚ)
    (hp : free_parameters.length = N) (hm : mean.length = N)
    (hs : stdev.length = N) (_hMN : N < M) :
    (∃ l, Sampler._update_models free_parameters mean stdev samples =
        .ok (l, sampleCovSpec samples)) ∧
    (∀ j k, sampleCovSpec samples j k = sampleCovSpec samples k j) := by
  constructor
  · obtain ⟨l, hl, -, -⟩ := updateParamsLoop_ok free_parameters 0 mean stdev
      (by omega) (by omega)
    refine ⟨l, ?_⟩
    unfold Sampler._update_models
    rw [hl]
    have hcov : npCov (matTranspose samples) = sampleCovSpec samples := by
      funext j k
      rfl
    rw [hcov]
  · intro j k
    unfold sampleCovSpec
    congr 1
    exact Finset.sum_congr rfl fun i _ => by ring

/-- C1 witness: concrete instantiation with two free parameters and a
3 by 2 sample matrix, checking symmetry of the off-diagonal entry and that
the consolidation call succeeds. -/
theorem update_models_covariance_spec_witness :
    sampleCovSpec sEx32 0 1 = sampleCovSpec sEx32 1 0 ∧
    (Sampler._update_models pList2 [2, 3] [4, 5] sEx32).isOk = true := by
  have h := update_models_covariance_spec pList2 [2, 3] [4, 5] sEx32
    rfl rfl rfl (by decide)
  refine ⟨h.2 0 1, ?_⟩
  obtain ⟨l, hl⟩ := h.1
  rw [hl]
  rfl

/-- C2: when the posterior mean and stdev arrays have exactly one entry per
free parameter, the consolidation step succeeds and parameter i of the
updated set is the old parameter with value replaced by mean[i] and error
replaced by stdev[i], in free-parameter order. -/
theorem update_models_sets_values_errors
    (free_parameters : List Parameter) (mean stdev : List ℚ) {M N : Nat}
    (samples : Fin M → Fin N → ℚ)
    (hm : mean.length = free_parameters.length)
    (hs : stdev.length = free_parameters.length) :
    ∃ l cov, Sampler._update_models free_parameters mean stdev samples = .ok (l, cov) ∧
      l.length = free_parameters.length ∧
      ∀ i (hi : i < free_parameters.length),
        l[i]? = some { free_parameters.get ⟨i, hi⟩ with
                       value := mean.getD i 0
                       error := stdev.getD i 0 } := by
  obtain ⟨l, hl, hlen, hget⟩ := updateParamsLoop_ok free_parameters 0 mean stdev
    (by omega) (by omega)
  refine ⟨l, npCov (matTranspose samples), ?_, hlen, ?_⟩
  · unfold Sampler._update_models
    rw [hl]
  · intro i hi
    have h2 := hget i hi
    simpa using h2

/-- C2 witness: with one free parameter, mean [10] and stdev [20], the
updated parameter at index 0 carries value 10 and error 20. -/
theorem update_models_sets_values_errors_witness :
    (Sampler._update_models [pNoPrior] [10] [20] sEx21).toOption.map
        (fun lc => lc.1[0]?) =
      some (some { pNoPrior with value := 10, error := 20 }) := by
  obtain ⟨l, cov, h1, h2, h3⟩ :=
    update_models_sets_values_errors [pNoPrior] [10] [20] sEx21 rfl rfl
  have h4 := h3 0 (by decide)
  rw [h1]
  show some (l[0]?) = _
  rw [h4]
  rfl

/-- C7 counterexample: one free parameter but posterior arrays of length two
(so the lengths are not all equal) makes the consolidation step succeed with
a silent prefix update instead of failing with a ConfigurationError. -/
theorem update_models_no_length_check_cex :
    Sampler._update_models [pNoPrior] [1, 2] [3, 4] sEx21 ≠
      .error .configurationError ∧
    (Sampler._update_models [pNoPrior] [1, 2] [3, 4] sEx21).isOk = true := by
  have h : Sampler._update_models [pNoPrior] [1, 2] [3, 4] sEx21 =
      .ok ([{ pNoPrior with value := 1, error := 3 }],
        npCov (matTranspose sEx21)) := rfl
  constructor
  · rw [h]
    intro hcontra
    exact Except.noConfusion hcontra
  · rw [h]
    rfl

/-- C7 amended: the consolidation step validates nothing. When each posterior
array has at least one entry per free parameter it succeeds, silently using
only the first len(free_parameters) entries; when either array is shorter
than the free-parameter list it fails with IndexError, never with
ConfigurationError. -/
theorem update_models_mismatch_behavior
    (free_parameters : List Parameter) (mean stdev : List ℚ) {M N : Nat}
    (samples : Fin M → Fin N → ℚ) :
    (free_parameters.length ≤ mean.length → free_parameters.length ≤ stdev.length →
      ∃ l cov, Sampler._update_models free_parameters mean stdev samples =
        .ok (l, cov)) ∧
    ((mean.length < free_parameters.length ∨
        stdev.length < free_parameters.length) →
      Sampler._update_models free_parameters mean stdev samples =
        .error .indexError) := by
  constructor
  · intro h1 h2
    obtain ⟨l, hl, -, -⟩ := updateParamsLoop_ok free_parameters 0 mean stdev
      (by omega) (by omega)
    refine ⟨l, npCov (matTranspose samples), ?_⟩
    unfold Sampler._update_models
    rw [hl]
  · intro h
    have hne : 0 < free_parameters.length := by
      rcases h with h | h <;> omega
    have herr := updateParamsLoop_indexError free_parameters 0 mean stdev hne
      (by rcases h with h | h
          · left
            omega
          · right
            omega)
    unfold Sampler._update_models
    rw [herr]

/-- C7 witness: with one free parameter and empty posterior arrays the
consolidation step fails with IndexError. -/
theorem update_models_mismatch_behavior_witness :
    Sampler._update_models [pNoPrior] ([] : List ℚ) ([] : List ℚ) sEx21 =
      .error .indexError :=
  (update_models_mismatch_behavior [pNoPrior] [] [] sEx21).2 (Or.inl (by decide))

theorem assignValues_getElem (ps : List Parameter) (vs : List ℚ) (i : Nat)
    (hi : i < ps.length) (hv : i < vs.length) :
    (Parameters.assignValues ps vs)[i]? =
      some { ps.get ⟨i, hi⟩ with value := vs.getD i 0 } := by
  induction ps generalizing vs i with
  | nil => simp at hi
  | cons p ps ih =>
    cases vs with
    | nil => simp at hv
    | cons v vs =>
      cases i with
      | zero => simp [Parameters.assignValues]
      | succ j =>
        have hj : j < ps.length := by
          simp only [List.length_cons] at hi
          omega
        have hv' : j < vs.length := by
          simp only [List.length_cons] at hv
          omega
        have h2 := ih vs j hj hv'
        simpa [Parameters.assignValues, List.getElem?_cons_succ] using h2

/-- C3: fcn(v) first assigns v elementwise into the parameter set, in the
fixed free-parameter order, and returns exactly -0.5 times the externally
supplied stat_sum statistic evaluated on the assigned state. -/
theorem sampler_likelihood_fcn_spec (like : SamplerLikelihood) (v : List ℚ)
    (h : v.length = like.parameters.length) :
    (like.fcn v).2 =
      -(1 / 2 : ℚ) * like.function (Parameters.assignValues like.parameters v) ∧
    (like.fcn v).1.parameters = Parameters.assignValues like.parameters v ∧
    ∀ i (hi : i < like.parameters.length),
      ((like.fcn v).1.parameters)[i]? =
        some { like.parameters.get ⟨i, hi⟩ with value := v.getD i 0 } := by
  refine ⟨rfl, rfl, ?_⟩
  intro i hi
  show (Parameters.assignValues like.parameters v)[i]? = _
  exact assignValues_getElem like.parameters v i hi (by omega)

/-- C3 witness: a concrete likelihood whose statistic sums the parameter
values, evaluated at the vector [7]: the returned statistic is -0.5 times
the stat_sum of the assigned state. -/
theorem sampler_likelihood_fcn_spec_witness :
    ([7] : List ℚ).length = likeEx.parameters.length ∧
    (likeEx.fcn [7]).2 =
      -(1 / 2 : ℚ) * likeEx.function (Parameters.assignValues likeEx.parameters [7]) :=
  ⟨rfl, (sampler_likelihood_fcn_spec likeEx [7] rfl).1⟩

theorem simulate_one_obs_id (cfg : SimulationConfig) (seed : Nat) :
    (simulate_one cfg seed).obs_id = seed := by
  unfold simulate_one
  cases hbg : cfg.background with
  | none => rfl
  | some p =>
    cases p
    rfl

/-- C4: the counts simulated for a seed do not depend on the ambient
simulator state: a second simulate_obs call with the same seed on the state
left by the first call, or a call on any simulator sharing the same model
configuration, stores an observation with identical on and off count
vectors (full equality of the stored observation). -/
theorem simulate_obs_deterministic (sim sim2 : SpectrumSimulation) (seed : Nat)
    (hcfg : sim2.cfg = sim.cfg) :
    ((sim.simulate_obs seed).simulate_obs seed).obs = (sim.simulate_obs seed).obs ∧
    (sim2.simulate_obs seed).obs = (sim.simulate_obs seed).obs := by
  constructor
  · rfl
  · simp [SpectrumSimulation.simulate_obs, hcfg]

/-- C4 witness: two simulators with the same model configuration but
different ambient generator states and call histories store the same
observation for seed 23. -/
theorem simulate_obs_deterministic_witness :
    (simEx2.simulate_obs 23).obs = (simEx.simulate_obs 23).obs :=
  (simulate_obs_deterministic simEx simEx2 23 rfl).2

theorem runLoop_spec (sim : SpectrumSimulation) (seeds : List Nat) :
    (SpectrumSimulation.runLoop sim seeds).2.map SimulatedObservation.obs_id = seeds ∧
    ∀ i, i < seeds.length →
      ((SpectrumSimulation.runLoop sim seeds).2)[i]? =
        some (simulate_one sim.cfg (seeds.getD i 0)) := by
  induction seeds generalizing sim with
  | nil => exact ⟨rfl, fun i hi => absurd hi (by simp)⟩
  | cons s ss ih =>
    obtain ⟨ih1, ih2⟩ := ih { sim with obs := some (simulate_one sim.cfg s) }
    have hunfold : (SpectrumSimulation.runLoop sim (s :: ss)).2 =
        simulate_one sim.cfg s ::
          (SpectrumSimulation.runLoop
            { sim with obs := some (simulate_one sim.cfg s) } ss).2 := rfl
    constructor
    · rw [hunfold, List.map_cons, simulate_one_obs_id, ih1]
    · intro i hi
      cases i with
      | zero =>
        rw [hunfold]
        simp
      | succ j =>
        have hj : j < ss.length := by
          simp only [List.length_cons] at hi
          omega
        have h2 := ih2 j hj
        rw [hunfold, List.getElem?_cons_succ]
        simpa using h2

/-- C5: run(seeds) produces a result set whose observation identifiers are
exactly the input seeds in input order, and whose element at every position
i equals the observation simulate_one produces for seed i in isolation. -/
theorem run_matches_isolated (sim : SpectrumSimulation) (seeds : List Nat) :
    (sim.run seeds).result.map (List.map SimulatedObservation.obs_id) = some seeds ∧
    ∀ i, i < seeds.length →
      (sim.run seeds).result.bind (fun l => l[i]?) =
        some (simulate_one sim.cfg (seeds.getD i 0)) := by
  obtain ⟨h1, h2⟩ := runLoop_spec sim seeds
  constructor
  · show some ((SpectrumSimulation.runLoop sim seeds).2.map SimulatedObservation.obs_id) = some seeds
    rw [h1]
  · intro i hi
    show ((SpectrumSimulation.runLoop sim seeds).2)[i]? = _
    exact h2 i hi

/-- C5 witness: batching the seeds [5, 7] yields at position 1 exactly the
observation of simulate_one run in isolation for seed 7. -/
theorem run_matches_isolated_witness :
    (simEx.run [5, 7]).result.bind (fun l => l[1]?) =
      some (simulate_one simEx.cfg 7) := by
  have h := (run_matches_isolated simEx [5, 7]).2 1 (by decide)
  simpa using h

end Gammapy
